import Mathlib

/-!
# Geo-Alarm: verification of the geofence evaluation and alarm-lifecycle engine

Shallow embedding of the alarm-trigger logic of the Geo-Alarm repository
(`src/pages/index.js`, distance utilities in `src/util/getUtils.js` /
`src/unnamed/part_001`).  Conventions:

* JS timestamps (`Date.now()` milliseconds) are modelled as `Int`;
  distances and accuracies (metres, JS doubles on the main code paths)
  are modelled as `Rat`.  The claims at issue depend only on comparisons
  and on exact small constants, never on binary rounding, so exact
  rational arithmetic is a faithful model of the double arithmetic used.
* A JS value that is either `null` or a number is modelled as `Option Rat`
  (or `Option Int` for timestamps).  JS truthiness of such a value is
  `v != null && v != 0`, which we embed explicitly where the source
  relies on it (e.g. `locationAccuracy ? _ : _`).
* React `useState` lists are ordinary Lean lists; the `setAlarms` updater
  functions of the source become pure list operations.
-/

namespace GeoAlarm

/-- Alarm kind: the `type` field of an alarm object in `src/pages/index.js`
(`"oneTime"` or `"persistent"`). -/
inductive AlarmType where
  | oneTime
  | persistent
deriving DecidableEq, Repr

/-- An alarm object as created by `handleMapClick` / `selectSearchResult`
in `src/pages/index.js`: `{name, location, radius, triggered, createdAt,
type, expiresAt}`.  `location` is a `[lat, lng]` pair, `createdAt` an
ISO timestamp (modelled as an integer timestamp, used only as an identity
key), `expiresAt` either `null` or a timestamp. -/
structure Alarm where
  name : String
  location : Rat × Rat
  radius : Rat
  triggered : Bool
  createdAt : Int
  type : AlarmType
  expiresAt : Option Int
deriving DecidableEq, Repr

/-- The accuracy buffer computed in the trigger-checking effect
(`src/pages/index.js` line 535):
`locationAccuracy ? Math.min(locationAccuracy * 0.5, 20) : 10`.
JS truthiness: `locationAccuracy` is falsy both when it is `null`
(no accepted sample yet) and when it is the number `0`. -/
def accBuffer (locationAccuracy : Option Rat) : Rat :=
  match locationAccuracy with
  | some a => if a ≠ 0 then min (a * (1/2)) 20 else 10
  | none => 10

/-- One armed-alarm check of the trigger-checking effect
(`src/pages/index.js` lines 523-558), for a single alarm: given the
distance `dist = getDistance(userLocation, alarm.location)`, the current
`locationAccuracy` state, the alarm, and whether the alarm's debounce key
`${alarm.createdAt}-${index}` is currently in `triggeredAlarmsRef`,
decide whether `triggerAlarm` is invoked (a trigger event fires) on this
evaluation cycle. -/
def checkAlarmFires (dist : Rat) (locationAccuracy : Option Rat)
    (alarm : Alarm) (inTriggeredSet : Bool) : Bool :=
  if alarm.triggered then false
  else
    let triggerRadius := alarm.radius + accBuffer locationAccuracy
    if dist ≤ triggerRadius then
      if inTriggeredSet then false else true
    else false

/-- Modelled from the spec: the accuracy buffer as the spec sentence for
claim C1 words it — `buffer = min(accuracyMeters * 0.5, 20m)` whenever
the sample's accuracy is known, `buffer = 10m` only when it is unknown.
To be compared with `accBuffer`, the buffer the code computes. -/
def specAccBuffer (locationAccuracy : Option Rat) : Rat :=
  match locationAccuracy with
  | some a => min (a * (1/2)) 20
  | none => 10

/-- The accept/reject decision of the `watchPosition` success callback in
`startContinuousLocationTracking` (`src/pages/index.js` lines 170-230).
`prev` is the `userLocation` state the callback closed over (`null` or a
`[lat, lng]` array, always truthy when non-null), `dist` the value of
`getDistance(userLocation, newLocation)` (both the iOS guard and the
minimum-movement filter compare against this same pair), `acc` the raw
sample's `accuracy`.  Returns `true` iff the callback reaches
`setUserLocation(newLocation)` (the sample is accepted and forwarded),
`false` iff one of the three early `return`s discards it:
1. `accuracy > 1000` (sanity ceiling);
2. iOS only: `accuracy > 100 && userLocation` and `distance < accuracy/2`;
3. minimum-movement filter: `previousLocation` exists and
   `distance < Math.max(accuracy/3, 5) && accuracy > 20`. -/
def watchAccept (isIOS : Bool) (prev : Option (Rat × Rat))
    (dist : Rat) (acc : Rat) : Bool :=
  if 1000 < acc then false
  else if isIOS ∧ 100 < acc ∧ prev.isSome ∧ dist < acc / 2 then false
  else if prev.isSome ∧ dist < max (acc / 3) 5 ∧ 20 < acc then false
  else true

/-- The accept/reject decision of the `watchPosition` callback in the
older variant of the tracking code (`src/unnamed/part_001` lines
1662-1682): the only filter there is the tighter sanity ceiling
`if (accuracy > 500) return;`. -/
def watchAcceptV500 (acc : Rat) : Bool :=
  if 500 < acc then false else true

/-- Whether an alarm counts as expired in the trigger-checking effect
(`src/pages/index.js` line 493):
`alarm.expiresAt && new Date(alarm.expiresAt) < currentTime`. -/
def isExpired (now : Int) (a : Alarm) : Bool :=
  match a.expiresAt with
  | some e => e < now
  | none => false

/-- The expiry pass of the trigger-checking effect
(`src/pages/index.js` lines 492-497): `activeAlarms` keeps exactly the
alarms that are not expired. -/
def expiryFilter (now : Int) (alarms : List Alarm) : List Alarm :=
  alarms.filter (fun a => ¬ isExpired now a)

/-- The alarms against which trigger evaluation actually runs in one
cycle of the effect (`src/pages/index.js` lines 499-523): when the
expiry pass removed anything (`activeAlarms.length !== alarms.length`)
the effect stores the filtered list and `return`s before the
`activeAlarms.forEach` trigger loop, so nothing is evaluated that cycle;
otherwise the whole (unchanged) list is evaluated. -/
def evaluatedAlarms (now : Int) (alarms : List Alarm) : List Alarm :=
  let active := expiryFilter now alarms
  if active.length ≠ alarms.length then [] else active

/-- The `setAlarms` updater used both by `triggerAlarm`
(`prev.map((a, i) => (i === index ? { ...a, triggered: true } : a))`,
`src/pages/index.js` lines 575-577) and by `resetAlarm` / the auto-reset
timer (same shape with `triggered: false`, lines 648-653 and 690-693):
replace the `triggered` flag of the element at position `index` with `v`,
leaving every other element untouched. -/
def mapTrig (v : Bool) : List Alarm → Nat → List Alarm
  | [], _ => []
  | a :: rest, 0 => { a with triggered := v } :: rest
  | a :: rest, n + 1 => a :: mapTrig v rest n

/-!
## Per-zone debounce timeline (claim C2)

In a run in which only location samples arrive (no alarm is created,
deleted or manually reset), a fixed zone keeps a fixed position `index`
in the `alarms` list and hence a fixed debounce key
`${alarm.createdAt}-${index}`; evaluations of other zones never touch
that key.  For such runs the zone's observable trigger machinery is a
function of its last fire time alone:

* the key is added to `triggeredAlarmsRef` when the zone fires at `t0`
  and removed by `setTimeout(.., 10000)`, so it is present at any later
  evaluation time `t` with `t - t0 < 10000` (the removal cannot run
  before its 10000 ms deadline; we let it run exactly at the deadline,
  the earliest — i.e. worst for duplicate suppression — possibility);
* `alarm.triggered` is set to `true` by `triggerAlarm` at `t0` and reset
  to `false` by the 3000 ms auto-reset timer, so it is `true` while
  `t - t0 < 3000` (the choice of boundary is irrelevant: the debounce
  key alone already suppresses fires for the whole 10000 ms window).
-/

/-- Whether the zone's debounce key `${createdAt}-${index}` is in
`triggeredAlarmsRef.current` at time `t`, given the time `lastFire` of
the zone's most recent trigger (key added on fire at line 549, removed
10 s later by the `setTimeout` at lines 555-557). -/
def keyPresent (t : Int) (lastFire : Option Int) : Bool :=
  match lastFire with
  | some t0 => t - t0 < 10000
  | none => false

/-- Whether `alarm.triggered` is `true` at time `t` in a sample-only run:
set on fire, cleared by the 3000 ms auto-reset `setTimeout`
(`src/pages/index.js` lines 648-653). -/
def trigFlag (t : Int) (lastFire : Option Int) : Bool :=
  match lastFire with
  | some t0 => t - t0 < 3000
  | none => false

/-- One evaluation of the fixed zone at time `t` in a sample-only run:
`inRange` is `distance <= triggerRadius` for this cycle's sample.  The
zone fires iff it passes the `!alarm.triggered` guard (line 526), is in
range (line 542) and its key is not in `triggeredAlarmsRef` (line 544).
Returns the updated last-fire time and whether a trigger event fired. -/
def evalZoneFires (t : Int) (inRange : Bool) (lastFire : Option Int) : Bool :=
  inRange && !trigFlag t lastFire && !keyPresent t lastFire

/-- The chronological list of trigger-event times a fixed zone produces
over a chronological list `evts` of evaluation cycles `(t, inRange)`,
starting from last-fire state `lastFire`. -/
def fireTimes : List (Int × Bool) → Option Int → List Int
  | [], _ => []
  | (t, inR) :: rest, lastFire =>
    if evalZoneFires t inR lastFire then t :: fireTimes rest (some t)
    else fireTimes rest lastFire

/-!
## Alarm list, timers and user actions (claims C4, C5, C9)

`triggerAlarm` schedules its auto-reset (3000 ms) and — for `oneTime`
alarms — its deletion (8000 ms) with `setTimeout` callbacks that capture
the list **index** of the alarm, not its identity; `deleteAlarm` removes
an alarm immediately but cancels neither pending timer.  We model the
system state as the alarm list, the persisted (IndexedDB) list, and the
multiset of pending timers, and run timers at their deadlines.
-/

/-- A pending `setTimeout` action scheduled by `triggerAlarm`: the
auto-reset at lines 648-653 or the one-time deletion at lines 657-683 of
`src/pages/index.js`.  Each captures the alarm's list index at schedule
time. -/
inductive TAct where
  | reset (index : Nat)
  | del (index : Nat)
deriving DecidableEq, Repr

/-- System state: the React `alarms` state, the list last written to the
database by `saveAlarms`, and the pending timers `(deadline, action)`. -/
structure Sys where
  alarms : List Alarm
  db : List Alarm
  timers : List (Int × TAct)
deriving DecidableEq, Repr

/-- `triggerAlarm(index)` invoked at time `t` (`src/pages/index.js`
lines 567-688): bail out if the alarm is missing or already triggered;
otherwise set its `triggered` flag and schedule the 3000 ms auto-reset,
plus the 8000 ms deletion when `alarm.type === "oneTime"`. -/
def trigStep (index : Nat) (t : Int) (s : Sys) : Sys :=
  match s.alarms.get? index with
  | none => s
  | some a =>
    if a.triggered then s
    else
      { s with
        alarms := mapTrig true s.alarms index
        timers := s.timers ++ [(t + 3000, TAct.reset index)] ++
          (if a.type = AlarmType.oneTime then [(t + 8000, TAct.del index)] else []) }

/-- `deleteAlarm(index)` (`src/pages/index.js` lines 763-794), with the
user confirming: bounds-check, then `alarms.filter((_, i) => i !== index)`
becomes the new list, which is also written to the database.  No pending
timer is cancelled. -/
def userDeleteStep (index : Nat) (s : Sys) : Sys :=
  if index < s.alarms.length then
    let newAlarms := s.alarms.eraseIdx index
    { s with alarms := newAlarms, db := newAlarms }
  else s

/-- Fire one pending timer action.  The auto-reset maps
`(a, i) => i === index ? { ...a, triggered: false } : a` over the
**current** list; the one-time deletion filters out the element at the
captured index of the **current** list and saves the result. -/
def fireTimer (act : TAct) (s : Sys) : Sys :=
  match act with
  | TAct.reset index => { s with alarms := mapTrig false s.alarms index }
  | TAct.del index =>
    let newAlarms := s.alarms.eraseIdx index
    { s with alarms := newAlarms, db := newAlarms }

/-- Extract the earliest-deadline pending timer with deadline `≤ T`,
together with the remaining timer list (first occurrence on ties). -/
def takeDue (T : Int) : List (Int × TAct) → Option ((Int × TAct) × List (Int × TAct))
  | [] => none
  | tm :: rest =>
    if tm.1 ≤ T then
      match takeDue T rest with
      | some (tm', rest') =>
        if tm'.1 < tm.1 then some (tm', tm :: rest') else some (tm, rest)
      | none => some (tm, rest)
    else
      match takeDue T rest with
      | some (tm', rest') => some (tm', tm :: rest')
      | none => none

/-- Fire, in deadline order, every pending timer whose deadline is `≤ T`
(fuel-driven recursion; each step removes one timer). -/
def fireDueAux : Nat → Int → Sys → Sys
  | 0, _, s => s
  | n + 1, T, s =>
    match takeDue T s.timers with
    | none => s
    | some (tm, rest) => fireDueAux n T (fireTimer tm.2 { s with timers := rest })

/-- Advance the system to time `T`: run every timer due at or before `T`. -/
def fireDue (T : Int) (s : Sys) : Sys :=
  fireDueAux s.timers.length T s

/-!
## JS doubles with special values, and `getDistance` (claim C8)

`getDistance` in `src/util/getUtils.js` (the copy at
`src/unnamed/part_001` lines 626-657, the variant imported by
`src/pages/index.js`) validates its inputs and then runs the haversine
formula on IEEE-754 doubles.  We model a JS number as `NaN`, `+∞`, `-∞`
or a finite rational (`JSVal`); `+`, `-`, `*`, `/` follow the IEEE
special-value rules exactly and are exact on finite operands (the claim
depends only on special-value propagation, never on binary rounding).
`Math.sin` / `Math.cos` / `Math.sqrt` / `Math.atan2` / `Math.PI` are
supplied by any implementation `m : MathImpl` satisfying `MathOk m`, the
ECMAScript-mandated facts the proofs use: the trig functions map `NaN`
and `±∞` to `NaN`, `sqrt NaN = NaN`, `atan2 NaN NaN = NaN`, and `PI` is
a positive finite number.
-/

/-- A JS number: `NaN`, `Infinity`, `-Infinity`, or a finite value. -/
inductive JSVal where
  | nan
  | inf
  | ninf
  | num (q : Rat)
deriving DecidableEq, Repr

namespace JSVal

/-- JS `isNaN` on a number. -/
def isNaNv : JSVal → Bool
  | nan => true
  | _ => false

/-- IEEE addition on JS numbers (exact on finite operands). -/
def add : JSVal → JSVal → JSVal
  | nan, _ => nan
  | _, nan => nan
  | inf, ninf => nan
  | ninf, inf => nan
  | inf, _ => inf
  | _, inf => inf
  | ninf, _ => ninf
  | _, ninf => ninf
  | num a, num b => num (a + b)

/-- IEEE subtraction on JS numbers (exact on finite operands). -/
def sub : JSVal → JSVal → JSVal
  | nan, _ => nan
  | _, nan => nan
  | inf, inf => nan
  | ninf, ninf => nan
  | inf, _ => inf
  | _, inf => ninf
  | ninf, _ => ninf
  | _, ninf => inf
  | num a, num b => num (a - b)

/-- IEEE multiplication on JS numbers (exact on finite operands);
`±∞ * 0 = NaN`, otherwise signs multiply. -/
def mul : JSVal → JSVal → JSVal
  | nan, _ => nan
  | _, nan => nan
  | inf, inf => inf
  | inf, ninf => ninf
  | ninf, inf => ninf
  | ninf, ninf => inf
  | inf, num b => if b = 0 then nan else if 0 < b then inf else ninf
  | num a, inf => if a = 0 then nan else if 0 < a then inf else ninf
  | ninf, num b => if b = 0 then nan else if 0 < b then ninf else inf
  | num a, ninf => if a = 0 then nan else if 0 < a then ninf else inf
  | num a, num b => num (a * b)

/-- IEEE division on JS numbers (exact on finite operands); `∞/∞ = NaN`,
`x/±∞ = 0` for finite `x`, `x/0 = ±∞` for finite nonzero `x` (sign of
`x`; the `+0`/`-0` distinction is irrelevant to the claims), `0/0 = NaN`. -/
def div : JSVal → JSVal → JSVal
  | nan, _ => nan
  | _, nan => nan
  | inf, inf => nan
  | inf, ninf => nan
  | ninf, inf => nan
  | ninf, ninf => nan
  | inf, num b => if 0 ≤ b then inf else ninf
  | ninf, num b => if 0 ≤ b then ninf else inf
  | num _, inf => num 0
  | num _, ninf => num 0
  | num a, num b =>
    if b = 0 then (if a = 0 then nan else if 0 < a then inf else ninf)
    else num (a / b)

end JSVal

/-- An implementation of the `Math` functions `getDistance` uses.  `pi`
is the value of `Math.PI`. -/
structure MathImpl where
  sin : JSVal → JSVal
  cos : JSVal → JSVal
  sqrt : JSVal → JSVal
  atan2 : JSVal → JSVal → JSVal
  pi : JSVal

/-- The ECMAScript facts about `Math` that the development relies on:
`Math.sin` and `Math.cos` return `NaN` on `NaN` and `±Infinity`,
`Math.sqrt NaN = NaN`, `Math.atan2(NaN, NaN) = NaN`, and `Math.PI` is a
positive finite number. -/
def MathOk (m : MathImpl) : Prop :=
  m.sin JSVal.nan = JSVal.nan ∧ m.sin JSVal.inf = JSVal.nan ∧
  m.sin JSVal.ninf = JSVal.nan ∧
  m.cos JSVal.nan = JSVal.nan ∧ m.cos JSVal.inf = JSVal.nan ∧
  m.cos JSVal.ninf = JSVal.nan ∧
  m.sqrt JSVal.nan = JSVal.nan ∧
  m.atan2 JSVal.nan JSVal.nan = JSVal.nan ∧
  ∃ q : Rat, 0 < q ∧ m.pi = JSVal.num q

/-- An argument passed to `getDistance`: `bad` covers a missing argument
(`undefined`), `null`, or any non-array value — everything the guard
`!pos1 || !pos2 || !Array.isArray(pos1) || !Array.isArray(pos2)`
rejects; `arr` is an array of JS numbers.  (`parseFloat` on a JS number
round-trips it through its string form exactly: finite values, `NaN` and
`±Infinity` all parse back to themselves, so `parseFloat(pos[i])` is the
identity on this domain.) -/
inductive JSInput where
  | bad
  | arr (l : List JSVal)
deriving DecidableEq, Repr

/-- The haversine body of `getDistance` (`src/unnamed/part_001` lines
642-656), run after validation on the four parsed components:
`R = 6371e3`, `φ1 = lat1*π/180`, `φ2 = lat2*π/180`,
`Δφ = (lat2-lat1)*π/180`, `Δλ = (lon2-lon1)*π/180`,
`a = sin(Δφ/2)² + cos φ1 * cos φ2 * sin(Δλ/2)²`,
`c = 2*atan2(√a, √(1-a))`, result `R*c`. -/
def haversine (m : MathImpl) (lat1 lon1 lat2 lon2 : JSVal) : JSVal :=
  let d180 : JSVal := JSVal.num 180
  let phi1 := JSVal.div (JSVal.mul lat1 m.pi) d180
  let phi2 := JSVal.div (JSVal.mul lat2 m.pi) d180
  let dphi := JSVal.div (JSVal.mul (JSVal.sub lat2 lat1) m.pi) d180
  let dlam := JSVal.div (JSVal.mul (JSVal.sub lon2 lon1) m.pi) d180
  let sdphi := m.sin (JSVal.div dphi (JSVal.num 2))
  let sdlam := m.sin (JSVal.div dlam (JSVal.num 2))
  let a := JSVal.add (JSVal.mul sdphi sdphi)
    (JSVal.mul (JSVal.mul (m.cos phi1) (m.cos phi2)) (JSVal.mul sdlam sdlam))
  let c := JSVal.mul (JSVal.num 2)
    (m.atan2 (m.sqrt a) (m.sqrt (JSVal.sub (JSVal.num 1) a)))
  JSVal.mul (JSVal.num 6371000) c

/-- `getDistance(pos1, pos2)` from `src/util/getUtils.js`
(`src/unnamed/part_001` lines 626-657): return `Infinity` if either
argument is missing/non-array, shorter than two components, or has a
component whose `parseFloat` is `NaN`; otherwise run the haversine
formula.  (Unlike the early variant in `src/unnamed/part_000`, the
result is returned without an `isNaN` guard.) -/
def getDistance (m : MathImpl) (pos1 pos2 : JSInput) : JSVal :=
  match pos1, pos2 with
  | JSInput.arr l1, JSInput.arr l2 =>
    match l1, l2 with
    | a1 :: b1 :: _, a2 :: b2 :: _ =>
      if a1.isNaNv ∨ b1.isNaNv ∨ a2.isNaNv ∨ b2.isNaNv then JSVal.inf
      else haversine m a1 b1 a2 b2
    | _, _ => JSVal.inf
  | _, _ => JSVal.inf

/-- A concrete `MathImpl` used only to witness theorems quantified over
`MathOk` implementations: on finite inputs the trig functions return a
placeholder finite value (never consulted by those theorems), on special
values they follow the ECMAScript rules. -/
def mathStub : MathImpl where
  sin v := match v with | JSVal.num _ => JSVal.num 0 | _ => JSVal.nan
  cos v := match v with | JSVal.num _ => JSVal.num 1 | _ => JSVal.nan
  sqrt v := match v with
    | JSVal.num q => JSVal.num q
    | JSVal.inf => JSVal.inf
    | _ => JSVal.nan
  atan2 x _ := match x with | JSVal.num _ => JSVal.num 0 | _ => JSVal.nan
  pi := JSVal.num (314159 / 100000)

/-- A persistent alarm used in concrete runs. -/
def zA : Alarm :=
  { name := "A", location := (0, 0), radius := 100, triggered := false,
    createdAt := 1, type := AlarmType.persistent, expiresAt := none }

/-- A second persistent alarm used in concrete runs. -/
def zB : Alarm :=
  { name := "B", location := (1, 1), radius := 50, triggered := false,
    createdAt := 2, type := AlarmType.persistent, expiresAt := none }

/-- A one-time alarm used in concrete runs. -/
def zO : Alarm :=
  { name := "C", location := (2, 2), radius := 80, triggered := false,
    createdAt := 3, type := AlarmType.oneTime, expiresAt := none }

/-! ## Helper lemmas -/

theorem mapTrig_length (v : Bool) (al : List Alarm) (index : Nat) :
    (mapTrig v al index).length = al.length := by
  induction al generalizing index with
  | nil => rfl
  | cons a rest ih =>
    cases index with
    | zero => simp [mapTrig]
    | succ n => simp [mapTrig, ih]

theorem mapTrig_get?_ne (v : Bool) (al : List Alarm) (index j : Nat)
    (h : j ≠ index) : (mapTrig v al index).get? j = al.get? j := by
  induction al generalizing index j with
  | nil => rfl
  | cons a rest ih =>
    cases index with
    | zero =>
      cases j with
      | zero => exact absurd rfl h
      | succ k => simp [mapTrig]
    | succ n =>
      cases j with
      | zero => simp [mapTrig]
      | succ k =>
        simp only [mapTrig, List.get?]
        exact ih n k (fun hk => h (by simp [hk]))

theorem mapTrig_get?_eq (v : Bool) (al : List Alarm) (index : Nat) :
    (mapTrig v al index).get? index =
      (al.get? index).map (fun a => { a with triggered := v }) := by
  induction al generalizing index with
  | nil => rfl
  | cons a rest ih =>
    cases index with
    | zero => simp [mapTrig]
    | succ n => simpa [mapTrig] using ih n

theorem fireTimes_lower_bound (evts : List (Int × Bool)) :
    ∀ t0 : Int, List.Pairwise (fun e f => e.1 ≤ f.1) evts →
      (∀ e ∈ evts, t0 ≤ e.1) →
      ∀ t ∈ fireTimes evts (some t0), t0 + 10000 ≤ t := by
  induction evts with
  | nil => intro t0 _ _ t ht; simp [fireTimes] at ht
  | cons e rest ih =>
    intro t0 hsorted hlb t ht
    obtain ⟨te, inR⟩ := e
    rw [List.pairwise_cons] at hsorted
    by_cases hfire : evalZoneFires te inR (some t0) = true
    · have hkey : keyPresent te (some t0) = false := by
        by_contra hk
        simp only [evalZoneFires, Bool.and_eq_true, Bool.not_eq_true'] at hfire
        simp [hfire.2] at hk
      have hgap : t0 + 10000 ≤ te := by
        simp only [keyPresent, decide_eq_false_iff_not, not_lt] at hkey
        omega
      rw [fireTimes, if_pos hfire] at ht
      rcases List.mem_cons.mp ht with h | h
      · omega
      · have := ih te hsorted.2 (fun f hf => hsorted.1 f hf) t h
        omega
    · rw [fireTimes, if_neg hfire] at ht
      refine ih t0 hsorted.2 ?_ t ht
      intro f hf
      exact le_trans (hlb (te, inR) (List.mem_cons_self _ _)) (hsorted.1 f hf)

theorem fireTimes_gap (evts : List (Int × Bool)) :
    ∀ lastFire : Option Int,
      List.Pairwise (fun e f => e.1 ≤ f.1) evts →
      (∀ t0 : Int, lastFire = some t0 → ∀ e ∈ evts, t0 ≤ e.1) →
      List.Pairwise (fun t1 t2 => t1 + 10000 ≤ t2) (fireTimes evts lastFire) := by
  induction evts with
  | nil => intro lastFire _ _; simp [fireTimes]
  | cons e rest ih =>
    intro lastFire hsorted hlb
    obtain ⟨te, inR⟩ := e
    rw [List.pairwise_cons] at hsorted
    by_cases hfire : evalZoneFires te inR lastFire = true
    · rw [fireTimes, if_pos hfire]
      refine List.pairwise_cons.mpr ⟨?_, ?_⟩
      · exact fireTimes_lower_bound rest te hsorted.2
          (fun f hf => hsorted.1 f hf)
      · exact ih (some te) hsorted.2
          (fun t0 h0 f hf => by cases h0; exact hsorted.1 f hf)
    · rw [fireTimes, if_neg hfire]
      refine ih lastFire hsorted.2 ?_
      intro t0 h0 f hf
      exact le_trans (hlb t0 h0 (te, inR) (List.mem_cons_self _ _)) (hsorted.1 f hf)

/-! ## Claim theorems -/

/-- Claim C1, counterexample to the claim as stated: a location sample
whose accuracy is known and equal to `0` is accepted, and against a
zone of radius `100` at distance `105` the code fires a trigger
(`locationAccuracy` is the falsy number `0`, so the code uses the
fixed buffer `10` and `triggerRadius = 110`), while under the claim's
buffer formula `min(0 * 0.5, 20) = 0` the effective radius is `100`
and no trigger may fire. -/
theorem C1_counterexample :
    checkAlarmFires 105 (some 0)
      { name := "z", location := (0, 0), radius := 100, triggered := false,
        createdAt := 0, type := AlarmType.persistent, expiresAt := none }
      false = true ∧
    ¬ ((105 : Rat) ≤ 100 + specAccBuffer (some 0)) := by
  constructor
  · norm_num [checkAlarmFires, accBuffer]
  · norm_num [specAccBuffer]

/-- Claim C1 (amended): against an Armed (non-triggered) zone, a trigger
event fires exactly when the distance is at most
`effectiveRadius = zone.radius + buffer` and the zone's debounce key is
not in the recently-triggered set, where `buffer = min(accuracy * 0.5, 20)`
when the accuracy is known and nonzero, and `buffer = 10` when the
accuracy is unknown or zero. -/
theorem C1_effective_radius_trigger :
    (∀ (dist : Rat) (acc : Option Rat) (alarm : Alarm) (inSet : Bool),
      alarm.triggered = false →
        (checkAlarmFires dist acc alarm inSet = true ↔
          dist ≤ alarm.radius + accBuffer acc ∧ inSet = false)) ∧
    (∀ a : Rat, a ≠ 0 → accBuffer (some a) = min (a * (1/2)) 20) ∧
    accBuffer none = 10 ∧ accBuffer (some 0) = 10 := by
  refine ⟨?_, ?_, rfl, rfl⟩
  · intro dist acc alarm inSet htrig
    simp only [checkAlarmFires, htrig, if_false, Bool.false_eq_true]
    by_cases hd : dist ≤ alarm.radius + accBuffer acc
    · simp only [if_pos hd, hd, true_and]
      cases inSet <;> simp
    · simp [if_neg hd, hd]
  · intro a ha
    simp [accBuffer, ha]

/-- Claim C1 witness: the amended theorem applied to a concrete armed
zone — with known accuracy `30` the buffer is `min(15, 20) = 15`, a
sample at distance `110` from a radius-`100` zone fires when the key is
absent. -/
theorem C1_witness :
    checkAlarmFires 110 (some 30)
      { name := "w", location := (0, 0), radius := 100, triggered := false,
        createdAt := 0, type := AlarmType.persistent, expiresAt := none }
      false = true := by
  have h := C1_effective_radius_trigger.1 110 (some 30)
    { name := "w", location := (0, 0), radius := 100, triggered := false,
      createdAt := 0, type := AlarmType.persistent, expiresAt := none }
    false rfl
  refine h.mpr ⟨?_, rfl⟩
  have hb : accBuffer (some 30) = 15 := by
    rw [C1_effective_radius_trigger.2.1 30 (by norm_num)]
    norm_num
  rw [hb]
  norm_num

/-- Claim C2: in a chronological run of evaluation cycles over a fixed
zone (location samples only — the zone set is not mutated, so the zone
keeps its list index and debounce key), the trigger-event times the zone
produces are pairwise at least `10000` ms apart: no two trigger events
for the same zone fire within the 10-second debounce window, however
many samples arrive and are evaluated inside it. -/
theorem C2_debounce_window (evts : List (Int × Bool))
    (hsorted : List.Pairwise (fun e f => e.1 ≤ f.1) evts) :
    List.Pairwise (fun t1 t2 => t1 + 10000 ≤ t2) (fireTimes evts none) :=
  fireTimes_gap evts none hsorted (fun t0 h0 => by cases h0)

/-- Claim C2 witness: a concrete chronological run — in-range samples at
`0`, `2000`, `5000` and `11000` ms produce trigger events at `0` and
`11000` only (the `2000` and `5000` ms samples are suppressed by the
triggered flag and the debounce key), and the gap property holds. -/
theorem C2_witness :
    fireTimes [(0, true), (2000, true), (5000, true), (11000, true)] none =
      [0, 11000] ∧
    List.Pairwise (fun t1 t2 => t1 + 10000 ≤ t2)
      (fireTimes [(0, true), (2000, true), (5000, true), (11000, true)] none) :=
  ⟨by decide,
   C2_debounce_window [(0, true), (2000, true), (5000, true), (11000, true)]
     (by decide)⟩

/-- Claim C3: on every evaluation cycle, (a) the expiry pass removes
every zone whose `expiresAt` is before `now` — such a zone is absent
from the `activeAlarms` list the cycle stores as the visible alarm
list — and this is decided without looking at the trigger state
(conjunct c); and (b) every zone the cycle's trigger loop actually
evaluates is unexpired (when the expiry pass removed anything, the
cycle returns before evaluating any zone at all). -/
theorem C3_expiry_before_evaluation :
    (∀ (now : Int) (alarms : List Alarm) (a : Alarm), a ∈ alarms →
      isExpired now a = true → a ∉ expiryFilter now alarms) ∧
    (∀ (now : Int) (alarms : List Alarm) (a : Alarm),
      a ∈ evaluatedAlarms now alarms → isExpired now a = false) ∧
    (∀ (now : Int) (a : Alarm) (b : Bool),
      isExpired now { a with triggered := b } = isExpired now a) := by
  refine ⟨?_, ?_, ?_⟩
  · intro now alarms a _ hexp hmem
    rw [expiryFilter, List.mem_filter] at hmem
    simp [hexp] at hmem
  · intro now alarms a hmem
    rw [evaluatedAlarms] at hmem
    by_cases h : (expiryFilter now alarms).length ≠ alarms.length
    · simp [h] at hmem
    · simp only [h, if_false] at hmem
      rw [expiryFilter, List.mem_filter] at hmem
      simpa using hmem.2
  · intro now a b
    rfl

/-- Claim C3 witness: the theorem applied to a concrete list holding one
expired triggered zone and one live zone at `now = 100`: the expired
zone is gone from the filtered list even though it is triggered, and
every evaluated zone is unexpired. -/
theorem C3_witness :
    ({ zA with expiresAt := some 50, triggered := true } ∉
      expiryFilter 100 [{ zA with expiresAt := some 50, triggered := true }, zB]) ∧
    isExpired 100 zB = false :=
  ⟨C3_expiry_before_evaluation.1 100
      [{ zA with expiresAt := some 50, triggered := true }, zB]
      { zA with expiresAt := some 50, triggered := true }
      (List.mem_cons_self _ _) (by decide),
   C3_expiry_before_evaluation.2.1 100 [zB] zB (by decide)⟩

/-- Claim C10: the `setAlarms` updaters of `triggerAlarm` (mark
triggered) and `resetAlarm` / the auto-reset timer (mark reset) — both
instances of `mapTrig` — only touch the `triggered` flag of the alarm at
the given index: for every alarm list, valid index and flag value, the
result has the same length, every alarm at another index is unchanged,
and the affected alarm keeps its `name`, `location`, `radius`, `type`,
`expiresAt` and `createdAt` fields. -/
theorem C10_update_frame (v : Bool) (al : List Alarm) (index : Nat)
    (hidx : index < al.length) :
    (mapTrig v al index).length = al.length ∧
    (∀ j : Nat, j ≠ index → (mapTrig v al index).get? j = al.get? j) ∧
    ((mapTrig v al index).get? index).map Alarm.name =
      (al.get? index).map Alarm.name ∧
    ((mapTrig v al index).get? index).map Alarm.location =
      (al.get? index).map Alarm.location ∧
    ((mapTrig v al index).get? index).map Alarm.radius =
      (al.get? index).map Alarm.radius ∧
    ((mapTrig v al index).get? index).map Alarm.type =
      (al.get? index).map Alarm.type ∧
    ((mapTrig v al index).get? index).map Alarm.expiresAt =
      (al.get? index).map Alarm.expiresAt ∧
    ((mapTrig v al index).get? index).map Alarm.createdAt =
      (al.get? index).map Alarm.createdAt := by
  have ha : al.get? index = some (al.get ⟨index, hidx⟩) := List.get?_eq_get hidx
  refine ⟨mapTrig_length v al index, fun j hj => mapTrig_get?_ne v al index j hj,
    ?_, ?_, ?_, ?_, ?_, ?_⟩ <;>
  · rw [mapTrig_get?_eq, ha]
    rfl

/-- Claim C10 witness: the theorem applied to a two-alarm list at index
`1` — the untouched alarm at index `0` is unchanged and the updated
alarm keeps its `name`. -/
theorem C10_witness :
    (mapTrig true [zA, zB] 1).get? 0 = some zA ∧
    ((mapTrig true [zA, zB] 1).get? 1).map Alarm.name =
      ([zA, zB].get? 1).map Alarm.name := by
  have h := C10_update_frame true [zA, zB] 1 (by decide)
  exact ⟨(h.2.1 0 (by decide)).trans rfl, h.2.2.1⟩

/-!
## Concrete runs exposing the stale index-captured timers (C4, C5, C9)

`triggerAlarm` schedules its 3000 ms auto-reset and 8000 ms one-time
deletion against the alarm's **list index** at trigger time, and
`deleteAlarm` cancels neither.  After a deletion shifts the list, a
pending timer fires against whatever occupies that index now.
-/

/-- Claim C4 (code bug): zone `zB` (index 1) triggers at `t = 0`, zone
`zA` (index 0) is deleted by the user at `t = 1000`, and the cool-down
deadline `t = 3000` passes.  `zB` was never deleted, yet it is still
`Triggered` after the cool-down: the auto-reset timer captured index
`1`, which no longer exists in the one-element list.  The spec's
invariant (claim C4) requires `zB` to be back in `Armed`. -/
theorem C4_stale_reset_failing_run :
    (fireDue 3000
      (userDeleteStep 0
        (fireDue 1000
          (trigStep 1 0 { alarms := [zA, zB], db := [zA, zB], timers := [] })))).alarms =
      [{ zB with triggered := true }] := by
  decide

/-- Claim C5 (code bug): one-time zone `zO` (index 1) triggers at
`t = 0`, zone `zA` (index 0) is deleted by the user at `t = 1000`, and
the deletion-grace deadline `t = 8000` passes.  The claim requires `zO`
to be removed from the store and from persistence after the grace
window, but the deletion timer captured index `1`, which no longer
exists in the one-element list, so `zO` survives — in the store and in
the database — forever (its deletion timer is already consumed). -/
theorem C5_stale_delete_failing_run :
    (fireDue 8000
      (fireDue 3000
        (userDeleteStep 0
          (fireDue 1000
            (trigStep 1 0 { alarms := [zA, zO], db := [zA, zO], timers := [] }))))).alarms =
      [{ zO with triggered := true }] ∧
    (fireDue 8000
      (fireDue 3000
        (userDeleteStep 0
          (fireDue 1000
            (trigStep 1 0 { alarms := [zA, zO], db := [zA, zO], timers := [] }))))).db =
      [{ zO with triggered := true }] := by
  constructor <;> decide

/-- Claim C9 (code bug): one-time zone `zO` (index 0) triggers at
`t = 0` and is deleted by the user at `t = 1000`, while zone `zB`
remains.  The claim (and spec §5) requires the zone's pending timers to
be silent no-ops after the deletion, leaving every remaining zone
unchanged — but at `t = 8000` the stale deletion timer fires against
index `0` of the current list and removes `zB`, an unrelated zone that
was never triggered and never deleted by the user, from the store and
from the database. -/
theorem C9_stale_timer_deletes_wrong_zone :
    (fireDue 8000
      (fireDue 3000
        (userDeleteStep 0
          (fireDue 1000
            (trigStep 0 0 { alarms := [zO, zB], db := [zO, zB], timers := [] }))))).alarms =
      [] ∧
    (fireDue 8000
      (fireDue 3000
        (userDeleteStep 0
          (fireDue 1000
            (trigStep 0 0 { alarms := [zO, zB], db := [zO, zB], timers := [] }))))).db =
      [] := by
  constructor <;> decide

/-- Claim C6, counterexample to the claim as stated: in
`src/pages/index.js` the sanity ceiling is `accuracy > 1000`, so a
sample with `accuracyMeters = 600` is **accepted** (here: non-iOS,
previous location known, moved 300 m ≥ `max(600/3, 5)`), and with
`locationAccuracy = 600` a zone of radius `100` at distance `0` fires a
trigger (`buffer = min(300, 20) = 20`): the sample does cause a zone
transition. -/
theorem C6_counterexample :
    watchAccept false (some (43, -79)) 300 600 = true ∧
    checkAlarmFires 0 (some 600)
      { name := "z", location := (0, 0), radius := 100, triggered := false,
        createdAt := 0, type := AlarmType.persistent, expiresAt := none }
      false = true := by
  constructor
  · norm_num [watchAccept]
  · norm_num [checkAlarmFires, accBuffer]

/-- Claim C6 (amended): a sample with accuracy above the sanity ceiling
of the variant at hand never causes a zone transition — in
`src/pages/index.js` the ceiling is `1000` m, and any sample with
`accuracy > 1000` is discarded by the first guard of the `watchPosition`
callback before it can update `userLocation`/`locationAccuracy` (hence
before any trigger evaluation can see it), whatever the platform,
previous location and distance moved; under the older
`src/unnamed/part_001` variant the ceiling is `500` m, so there a
`600` m sample is indeed rejected. -/
theorem C6_ceiling_rejects :
    (∀ (isIOS : Bool) (prev : Option (Rat × Rat)) (dist acc : Rat),
      1000 < acc → watchAccept isIOS prev dist acc = false) ∧
    watchAcceptV500 600 = false := by
  constructor
  · intro isIOS prev dist acc hacc
    simp [watchAccept, hacc]
  · norm_num [watchAcceptV500]

/-- Claim C6 witness: the amended theorem applied to a concrete
over-ceiling sample (`accuracy = 1200`). -/
theorem C6_witness :
    watchAccept false (some (43, -79)) 300 1200 = false :=
  C6_ceiling_rejects.1 false (some (43, -79)) 300 1200 (by norm_num)

/-- Claim C7, counterexample to the claim as stated: a first sample (no
previous accepted sample) is **not** always accepted — a first sample
with `accuracy = 1200` is discarded by the `accuracy > 1000` sanity
ceiling before the minimum-movement filter is ever reached. -/
theorem C7_counterexample :
    watchAccept false none 0 1200 = false := by
  norm_num [watchAccept]

theorem watchAccept_movement_discard (isIOS : Bool) (p : Rat × Rat)
    (dist acc : Rat) (hmove : dist < max (acc / 3) 5) (hacc : 20 < acc) :
    watchAccept isIOS (some p) dist acc = false := by
  by_cases hceil : 1000 < acc
  · simp [watchAccept, hceil]
  · by_cases hios : isIOS ∧ 100 < acc ∧ (some p : Option (Rat × Rat)).isSome ∧ dist < acc / 2
    · simp [watchAccept, hios, if_neg hceil]
    · simp [watchAccept, if_neg hceil, if_neg hios, hmove, hacc]

/-- Claim C7 (amended): the minimum-movement filter of the
`watchPosition` callback behaves as claimed — (a) when a previous
accepted sample exists, a sample moved less than `max(accuracy/3, 5)` m
with accuracy worse than `20` m is discarded (no forwarding to the
evaluator, no state change); (b) at accuracy `30` m a sample moved
`3` m (< `max(10, 5)`) is discarded while (c) one moved `15` m is
accepted; and (d) when no previous sample exists the first sample is
accepted, provided it passes the accuracy sanity ceiling
(`accuracy ≤ 1000`). -/
theorem C7_minimum_movement_filter :
    (∀ (isIOS : Bool) (p : Rat × Rat) (dist acc : Rat),
      dist < max (acc / 3) 5 → 20 < acc →
        watchAccept isIOS (some p) dist acc = false) ∧
    (∀ (isIOS : Bool) (p : Rat × Rat),
      watchAccept isIOS (some p) 3 30 = false) ∧
    (∀ (isIOS : Bool) (p : Rat × Rat),
      watchAccept isIOS (some p) 15 30 = true) ∧
    (∀ (isIOS : Bool) (dist acc : Rat),
      acc ≤ 1000 → watchAccept isIOS none dist acc = true) := by
  refine ⟨?_, ?_, ?_, ?_⟩
  · intro isIOS p dist acc hmove hacc
    exact watchAccept_movement_discard isIOS p dist acc hmove hacc
  · intro isIOS p
    have h3 : (3 : Rat) < max (30 / 3) 5 := by norm_num
    exact watchAccept_movement_discard isIOS p 3 30 h3 (by norm_num)
  · intro isIOS p
    simp only [watchAccept, Option.isSome_some]
    norm_num
  · intro isIOS dist acc hacc
    simp [watchAccept, Option.isSome_none, not_lt.mpr hacc]

/-- Claim C7 witness: the amended theorem applied at concrete inputs —
the 3 m / 30 m-accuracy sample is discarded, the 15 m one accepted, and
a first sample with accuracy `50` accepted. -/
theorem C7_witness :
    watchAccept false (some (43, -79)) 3 30 = false ∧
    watchAccept false (some (43, -79)) 15 30 = true ∧
    watchAccept false none 0 50 = true :=
  ⟨C7_minimum_movement_filter.2.1 false (43, -79),
   C7_minimum_movement_filter.2.2.1 false (43, -79),
   C7_minimum_movement_filter.2.2.2 false 0 50 (by norm_num)⟩

/-- Claim C8 (code bug): `getDistance` in `src/util/getUtils.js` does
**not** return the `Infinity` sentinel for every malformed input — a
coordinate with a non-finite component such as `[Infinity, 0]` passes
the validation (only components whose `parseFloat` is `NaN` are caught),
runs the haversine formula, and the result is `NaN` for any `Math`
implementation satisfying the ECMAScript special-value rules
(`Math.sin(-Infinity) = NaN` propagates through to `R * c`; this variant
drops the final `isNaN(distance)` guard that the early variant in
`src/unnamed/part_000` still has). -/
theorem C8_infinite_component_gives_nan (m : MathImpl) (hm : MathOk m) :
    getDistance m (JSInput.arr [JSVal.inf, JSVal.num 0])
      (JSInput.arr [JSVal.num 0, JSVal.num 0]) = JSVal.nan := by
  obtain ⟨hsn, hsi, hsni, hcn, hci, hcni, hsqn, hat, q, hq, hpi⟩ := hm
  simp only [getDistance]
  norm_num [haversine, hpi, JSVal.mul, JSVal.div, JSVal.sub, JSVal.add,
    JSVal.isNaNv, hq, hq.ne', hsn, hsi, hsni, hcn, hci, hcni, hsqn, hat]

/-- Claim C8 witness: the theorem applied to the concrete `Math`
implementation `mathStub`, which satisfies the ECMAScript special-value
rules. -/
theorem C8_witness :
    MathOk mathStub ∧
    getDistance mathStub (JSInput.arr [JSVal.inf, JSVal.num 0])
      (JSInput.arr [JSVal.num 0, JSVal.num 0]) = JSVal.nan :=
  have hok : MathOk mathStub :=
    ⟨rfl, rfl, rfl, rfl, rfl, rfl, rfl, rfl,
     ⟨314159 / 100000, by norm_num, rfl⟩⟩
  ⟨hok, C8_infinite_component_gives_nan mathStub hok⟩

end GeoAlarm
